import Mathlib

/-!
# Verification of the zonal-statistics pipeline of `gdal-common-python`

Shallow embedding of the feature-window locator, masked pixel extractor,
statistics aggregator and zonal driver of `src/lib/extract.py`,
`src/lib/zonal.py`, `src/rasters.py` and `src/features.py`.

Numbers that the Python code handles as floats are modelled as exact
rationals (`ℚ`); Python's `%` on numbers is `pymod`, `int(...)` truncation
toward zero is `pyint`, `round(...)` (banker's rounding, half-to-even) is
`pyRound`, and Python list indexing (with its negative-index wraparound)
is `pyGet`.  Fallible code (functions that can raise) returns
`Except String`; a raised exception is `Except.error` with the source's
message.
-/

namespace GdalCommon

/-- Python's `a % b` on floats: `a - b * floor (a / b)` (result has the sign
of `b`). -/
def pymod (a b : ℚ) : ℚ := a - b * ⌊a / b⌋

/-- Python's `int(q)`: truncation toward zero (`-⌊-q⌋` is the ceiling of a
negative `q`). -/
def pyint (q : ℚ) : ℤ := if 0 ≤ q then ⌊q⌋ else -⌊-q⌋

/-- Python 3's `round(q)`: round half to even (banker's rounding). -/
def pyRound (q : ℚ) : ℤ :=
  let f : ℤ := ⌊q⌋
  if q - f < 1/2 then f
  else if 1/2 < q - f then f + 1
  else if Even f then f else f + 1

/-- Python list indexing `l[i]` for `i : ℤ`: a negative index counts from the
end.  All uses below are in range for the lists involved; out-of-range
accesses (which raise `IndexError` in Python) fall back to `0`. -/
def pyGet (l : List ℚ) (i : ℤ) : ℚ :=
  if 0 ≤ i then l.getD i.toNat 0 else l.getD (l.length - (-i).toNat) 0

/-- A GDAL raster dataset, reduced to what the zonal pipeline reads: the
geotransform (origin, pixel size), the band dimensions (`XSize`/`YSize`,
which for these datasets equal the raster extent), and the per-band pixel
values (`band b y x`, row-major as `ReadAsArray` returns them). -/
structure Raster where
  originX : ℚ
  originY : ℚ
  psX : ℚ
  psY : ℚ
  width : ℕ
  height : ℕ
  band : ℕ → ℕ → ℕ → ℚ

/-- `rasters.getRasterTransform`: origin, pixel size and extent of a dataset. -/
def getRasterTransform (r : Raster) : (ℚ × ℚ) × (ℚ × ℚ) × (ℕ × ℕ) :=
  ((r.originX, r.originY), (r.psX, r.psY), (r.width, r.height))

/-- The non-null result of `extract.getFeatureToRasterWindow`: window origin
(world coordinates), resolution (pixels), offset into the raster (pixels),
and the raster's pixel size. -/
structure Window where
  origin : ℚ × ℚ
  resolution : ℤ × ℤ
  offset : ℤ × ℤ
  pixelSize : ℚ × ℚ
deriving DecidableEq

/-- Tail of `extract.getFeatureToRasterWindow` (from the comment `# outside
of extent return empty array` on): the bounds check on the offsets, the
clamping of the resolution to the raster dimensions, and the final
emptiness check. -/
def windowFinalize (width height : ℕ) (origin : ℚ × ℚ) (ps : ℚ × ℚ)
    (res0 res1 xoffset yoffset : ℤ) : Option Window :=
  if xoffset > (width : ℤ) ∨ yoffset > (height : ℤ) then none
  else
    let res0c := if xoffset + res0 > (width : ℤ) then (width : ℤ) - xoffset else res0
    let res1c := if yoffset + res1 > (height : ℤ) then (height : ℤ) - yoffset else res1
    if res0c ≤ 0 ∨ res1c ≤ 0 then none
    else some ⟨origin, (res0c, res1c), (xoffset, yoffset), ps⟩

/-- Body of `extract.getFeatureToRasterWindow` after the feature-extent
lookup: given the raster grid and the feature envelope
`(xmin, xmax, ymin, ymax)`, snap/clamp the minimum corner to the grid,
compute pixel offsets and resolution, and clamp to the raster bounds.
`none` models the all-`None` return tuple. -/
def windowFromExtent (r : Raster) (xmin0 xmax0 ymin0 ymax0 : ℚ) : Option Window :=
  -- snap x-origin to raster grid and crop to minimum corner
  let xmin := if xmin0 < r.originX then r.originX
              else xmin0 - pymod (xmin0 - r.originX) r.psX
  let xoffset := pyint ((xmin - r.originX) / r.psX)
  -- y-handling depends on the sign of the y pixel size
  let yparts : ℚ × ℚ × ℤ :=
    if r.psY < 0 then
      let ymax := if ymax0 > r.originY then r.originY
                  else ymax0 - pymod (r.originY - ymax0) r.psY
      (ymin0, ymax, pyint ((ymax - r.originY) / r.psY))
    else
      -- note: the source tests `ymax < origin[1]` here (not `ymin`) and
      -- clamps `ymin`; embedded exactly as written
      let ymin := if ymax0 < r.originY then r.originY
                  else ymin0 - pymod (ymin0 - r.originY) r.psY
      (ymin, ymax0, pyint ((ymin - r.originY) / r.psY))
  let ymin := yparts.1
  let ymax := yparts.2.1
  let yoffset := yparts.2.2
  let res0 := pyint ((xmax0 - xmin) / r.psX)
  let res1 := pyint ((ymax - ymin) / r.psY)
  let res1 := if r.psY < 0 then -res1 else res1
  windowFinalize r.width r.height (xmin, if r.psY < 0 then ymax else ymin)
    (r.psX, r.psY) res0 res1 xoffset yoffset

/-- An OGR geometry, reduced to its envelope (`GetEnvelope()` order:
xmin, xmax, ymin, ymax). -/
structure Geometry where
  xmin : ℚ
  xmax : ℚ
  ymin : ℚ
  ymax : ℚ
deriving DecidableEq

/-- An OGR feature: `GetGeometryRef()` returns `None` when the feature has
no geometry. -/
structure Feature where
  geometry : Option Geometry
deriving DecidableEq

/-- `features.getFeatureExtent`: `feature.GetGeometryRef().GetEnvelope()`.
On a feature without geometry `GetGeometryRef()` returns `None` and the
attribute access raises. -/
def getFeatureExtent (f : Feature) : Except String (ℚ × ℚ × ℚ × ℚ) :=
  match f.geometry with
  | Option.none => .error "AttributeError: NoneType object has no attribute GetEnvelope"
  | some g => .ok (g.xmin, g.xmax, g.ymin, g.ymax)

/-- `extract.getFeatureToRasterWindow`: feature-extent lookup followed by the
grid/window arithmetic of `windowFromExtent`. -/
def getFeatureToRasterWindow (r : Raster) (f : Feature) :
    Except String (Option Window) :=
  match getFeatureExtent f with
  | .error e => .error e
  | .ok (xmin, xmax, ymin, ymax) => .ok (windowFromExtent r xmin xmax ymin ymax)

/-- `rasters.readRaster`: bounds-checked window read of one band, returned as
rows (`arr[y][x]`). -/
def readRaster (dataset : Raster) (band : ℕ)
    (offset_x offset_y length_x length_y : ℤ) : Except String (List (List ℚ)) :=
  let width : ℤ := dataset.width
  let height : ℤ := dataset.height
  if offset_x > width ∨ offset_x < 0 then
    .error "Offset (x) is greater than band width or negative"
  else if offset_y > height ∨ offset_y < 0 then
    .error "Offset (y) is greater than band height or negative"
  else
    let lxE : Except String ℤ :=
      if length_x = 0 then .ok (width - offset_x)
      else if length_x < 0 then .error "Read length (x) cannot be negative"
      else if offset_x + length_x > width then
        .error "Offset plus length (x) is greater than band width"
      else .ok length_x
    match lxE with
    | .error e => .error e
    | .ok lx =>
      let lyE : Except String ℤ :=
        if length_y = 0 then .ok (height - offset_y)
        else if length_y < 0 then .error "Read length (y) cannot be negative"
        else if offset_y + length_y > height then
          .error "Offset plus length (y) is greater than band height"
        else .ok length_y
      match lyE with
      | .error e => .error e
      | .ok ly =>
        .ok ((List.range ly.toNat).map fun j =>
          (List.range lx.toNat).map fun i =>
            dataset.band band (offset_y.toNat + j) (offset_x.toNat + i))

/-- The `ignore_values` parameter: absent (`None`), a list of values, or a
callback (`return True to ignore`). -/
inductive IgnoreSpec where
  | absent : IgnoreSpec
  | vals (l : List ℚ) : IgnoreSpec
  | func (g : ℚ → Bool) : IgnoreSpec

/-- Python truthiness of the `ignore_values` argument (`if ignore_values:`):
`None` and the empty list are falsy. -/
def ignoreTruthy : IgnoreSpec → Bool
  | .absent => false
  | .vals l => !l.isEmpty
  | .func _ => true

/-- `extract.getPixelsByMaskArray`.  Mirrors the source exactly, including
that a pixel under a presence cell is appended only inside the
`if ignore_values:` branch (when `ignore_values` is falsy nothing is ever
appended). -/
def getPixelsByMaskArray (raster : Option Raster) (band : ℕ)
    (mask : Option (List (List ℕ))) (offset : Option (ℤ × ℤ))
    (resolution : Option (ℤ × ℤ)) (ignore_values : IgnoreSpec) :
    Except String (List ℚ) :=
  match raster, mask, offset with
  | some rast, some m, some off =>
    let res : ℤ × ℤ :=
      match resolution with
      | some rr => rr
      | Option.none => ((m.headD []).length, m.length)
    match readRaster rast band off.1 off.2 res.1 res.2 with
    | .error e => .error e
    | .ok pixels =>
      .ok ((List.range res.2.toNat).foldl (fun values y =>
        (List.range res.1.toNat).foldl (fun values x =>
          let mv := (m.getD y []).getD x 0
          if mv > 0 then
            let v := (pixels.getD y []).getD x 0
            if ignoreTruthy ignore_values then
              match ignore_values with
              | .func g => if ¬ g v then values ++ [v] else values
              | .vals l => if v ∉ l then values ++ [v] else values
              | .absent => values
            else values
          else values) values) [])
  | _, _, _ => .ok []

/-- Python's `str.upper()` for the ASCII statistic names involved, defined
structurally over the character list so that concrete instances compute. -/
def pyUpper (s : String) : String := ⟨s.data.map Char.toUpper⟩

/-- A statistic value in the output dictionary of `zonal._stats`.  All
statistics are exact rationals except the standard deviation, whose value
`variance ** 0.5` is kept symbolically as `sqrtOf variance`. -/
inductive StatVal where
  | q (x : ℚ) : StatVal
  | sqrtOf (x : ℚ) : StatVal
deriving DecidableEq

/-- The canonical statistic keys of `zonal._stats`, in the insertion order of
its `calculate` dictionary. -/
inductive CanonKey where
  | min | max | mean | median | var | stdev | perc90
deriving DecidableEq

/-- The lowercase dictionary key of a canonical statistic. -/
def canonName : CanonKey → String
  | .min => "min"
  | .max => "max"
  | .mean => "mean"
  | .median => "median"
  | .var => "var"
  | .stdev => "stdev"
  | .perc90 => "perc90"

/-- All canonical statistic keys, in the order `_stats` creates them. -/
def masterKeys : List CanonKey :=
  [.min, .max, .mean, .median, .var, .stdev, .perc90]

/-- The `calculate` dictionary of `zonal._stats`: which statistics were
requested. -/
structure StatFlags where
  min : Bool
  max : Bool
  mean : Bool
  median : Bool
  var : Bool
  stdev : Bool
  perc90 : Bool
deriving DecidableEq

/-- The alias tests of `zonal._stats` (`"MIN" in options or "MINIMUM" in
options`, ...), applied to the upper-cased options. -/
def calcFlags (options : List String) : StatFlags :=
  let ups := options.map pyUpper
  { min := decide ("MIN" ∈ ups) || decide ("MINIMUM" ∈ ups)
    max := decide ("MAX" ∈ ups) || decide ("MAXIMUM" ∈ ups)
    mean := decide ("MEAN" ∈ ups) || decide ("AVERAGE" ∈ ups) || decide ("AVG" ∈ ups)
    median := decide ("MEDIAN" ∈ ups)
    var := decide ("VAR" ∈ ups) || decide ("VARIANCE" ∈ ups)
    stdev := decide ("STDEV" ∈ ups)
    perc90 := decide ("PERC90" ∈ ups) }

/-- Flag of one canonical key in a `calculate` dictionary. -/
def flagOf (c : StatFlags) : CanonKey → Bool
  | .min => c.min
  | .max => c.max
  | .mean => c.mean
  | .median => c.median
  | .var => c.var
  | .stdev => c.stdev
  | .perc90 => c.perc90

/-- The canonical statistic key an option name resolves to, if any
(analysis helper; `_stats` itself works through the boolean `calculate`
dictionary, see `calcFlags`). -/
def canonOf (o : String) : Option CanonKey :=
  let u := pyUpper o
  if u = "MIN" ∨ u = "MINIMUM" then some .min
  else if u = "MAX" ∨ u = "MAXIMUM" then some .max
  else if u = "MEAN" ∨ u = "AVERAGE" ∨ u = "AVG" then some .mean
  else if u = "MEDIAN" then some .median
  else if u = "VAR" ∨ u = "VARIANCE" then some .var
  else if u = "STDEV" then some .stdev
  else if u = "PERC90" then some .perc90
  else none

/-- `zonal._stats`.  A Python dict with string keys inserted in the fixed
order min, max, mean, median, var, stdev, perc90 and later overwritten in
place is modelled as an association list in that same order.  Running
float sums are modelled as exact rational sums in the same accumulation
order; `pixel_values.sort()` sorts ascending — for values with a total
order the sorted list is unique, so any sort models it; `insertionSort`
is used; `variance ** 0.5` is the symbolic `StatVal.sqrtOf`.
`statsZero` is the `stats` dictionary as first created (one zero entry
per requested key, in `calculate` insertion order), returned as-is for an
empty input. -/
def statsZero (c : StatFlags) : List (String × StatVal) :=
  (if c.min then [("min", StatVal.q 0)] else []) ++
  (if c.max then [("max", StatVal.q 0)] else []) ++
  (if c.mean then [("mean", StatVal.q 0)] else []) ++
  (if c.median then [("median", StatVal.q 0)] else []) ++
  (if c.var then [("var", StatVal.q 0)] else []) ++
  (if c.stdev then [("stdev", StatVal.q 0)] else []) ++
  (if c.perc90 then [("perc90", StatVal.q 0)] else [])

def pyStats (pixel_values : List ℚ)
    (options : List String) : List (String × StatVal) :=
  let c := calcFlags options
  -- if empty array, return blank stats dict (created with the requested keys)
  if pixel_values.isEmpty then statsZero c
  else
    let num_vals : ℚ := pixel_values.length
    let mean : ℚ :=
      if c.mean || c.stdev || c.var then
        pixel_values.foldl (fun m v => m + v / num_vals) 0
      else 0
    let variance : ℚ :=
      if c.stdev || c.var then
        pixel_values.foldl (fun t v => t + (v - mean) ^ 2 / num_vals) 0
      else 0
    let sorted := pixel_values.insertionSort (· ≤ ·)
    (if c.min then [("min", StatVal.q (pyGet sorted 0))] else []) ++
    (if c.max then [("max", StatVal.q (pyGet sorted (-1)))] else []) ++
    (if c.mean then [("mean", StatVal.q mean)] else []) ++
    (if c.median && decide (0 < pixel_values.length) then
      [("median", StatVal.q (pyGet sorted (pyRound (1/2 * num_vals) - 1)))]
    else []) ++
    (if c.var then [("var", StatVal.q variance)] else []) ++
    (if c.stdev then [("stdev", StatVal.sqrtOf variance)] else []) ++
    (if c.perc90 && decide (0 < pixel_values.length) then
      [("perc90", StatVal.q (pyGet sorted (-⌊-((9:ℚ)/10 * num_vals)⌋ - 1)))]
    else [])

/-- The statistics validation of `zonal.statistics` (performed before the
feature loop): no options at all is fatal, and a `_stats` probe on the
empty list must return exactly one key per requested option. -/
def checkStatsOptions (options : List String) : Except String Unit :=
  if options.length = 0 then
    .error "No statistics supplied in parameters"
  else if (pyStats [] options).length ≠ options.length then
    .error "Unrecognized statistics type in parameters, check parameter/spelling"
  else .ok ()

/-- A Python value as passed for the `bands` parameter: an int or a
(possibly nested) list. -/
inductive PyVal where
  | int (i : ℤ) : PyVal
  | list (elems : List PyVal) : PyVal

/-- `isinstance(v, int)`. -/
def isIntVal : PyVal → Bool
  | .int _ => true
  | .list _ => false

/-- `isinstance(v, (list, tuple))`. -/
def isListVal : PyVal → Bool
  | .list _ => true
  | .int _ => false

/-- The raster/band normalization of `zonal.statistics`.  Mirrors the source
exactly: when `bands` is a list it is wrapped in another list
(`bands = [bands]`), then every element must satisfy
`isinstance(band, int)` (`assert`, so failure is an `AssertionError`);
iterating a bare int raises `TypeError`; a length-1 list is broadcast with
`bands *= len(rasters)`. -/
def normalizeBands (nRasters : ℕ) (bands : Option PyVal) :
    Except String (List PyVal) :=
  match bands with
  | Option.none =>
    -- if no bands supplied, assume first band for every raster
    .ok (List.replicate nRasters (PyVal.int 1))
  | some b0 =>
    let b1 := if isListVal b0 then PyVal.list [b0] else b0
    match b1 with
    | PyVal.int _ => .error "TypeError: int object is not iterable"
    | PyVal.list elems =>
      if elems.all isIntVal then
        if elems.length ≠ nRasters then
          if elems.length = 1 then .ok ((List.replicate nRasters elems).flatten)
          else .error "Inconsistent number of rasters and bands given"
        else .ok elems
      else .error "AssertionError"

/-- `conversion.featureToArray`.  The polygon scan conversion itself is done
by the wrapped imaging library (`ImageDraw.polygon`) and is passed in as
the collaborator `rasterize`; the source's own control flow — the
short-circuit to the empty Python list `[]` when any window argument is
`None`, and the geometry access that raises on a feature without a
geometry — is embedded here.  (The source also raises on non-polygon
geometry types; those inputs are outside the claims considered and folded
into `rasterize`.) -/
def featureToArray (rasterize : Feature → (ℚ × ℚ) → (ℚ × ℚ) → (ℤ × ℤ) → List (List ℕ))
    (f : Feature) (origin : Option (ℚ × ℚ)) (pixel_size : Option (ℚ × ℚ))
    (resolution : Option (ℤ × ℤ)) : Except String (List (List ℕ)) :=
  match origin, pixel_size, resolution with
  | some o, some p, some res =>
    match f.geometry with
    | Option.none => .error "AttributeError: NoneType object has no attribute GetGeometryName"
    | some _ => .ok (rasterize f o p res)
  | _, _, _ => .ok []

/-- `extract.getPixelsByFeatureMask`: window lookup, rasterization of the
feature in the window, then masked pixel extraction. -/
def getPixelsByFeatureMask
    (rasterize : Feature → (ℚ × ℚ) → (ℚ × ℚ) → (ℤ × ℤ) → List (List ℕ))
    (raster : Raster) (band : ℕ) (f : Feature) (ignore_values : IgnoreSpec) :
    Except String (List ℚ) :=
  match getFeatureToRasterWindow raster f with
  | .error e => .error e
  | .ok Option.none => .ok []
  | .ok (some w) =>
    match featureToArray rasterize f (some w.origin) (some w.pixelSize)
        (some w.resolution) with
    | .error e => .error e
    | .ok polyArray =>
      getPixelsByMaskArray (some raster) band (some polyArray) (some w.offset)
        (some w.resolution) ignore_values

/-- The identical-raster detection loop of `zonal.statistics` (lines 70-89):
`None` entries are skipped; for the first actual raster the loop evaluates
`rasterutils.get_transform(rast)` — an attribute that does not exist in
the shipped `rasters.py` (which defines only `getRasterTransform`), so the
lookup raises `AttributeError` there; with no actual raster the loop
finishes and `identical_rasters` keeps its initial `True`. -/
def identicalRastersCheck : List (Option Raster) → Except String Bool
  | [] => .ok true
  | Option.none :: rest => identicalRastersCheck rest
  | some _ :: _ =>
    .error "AttributeError: module rasters has no attribute get_transform"

/-- One output row of the Zonal Driver (the statistics part; the
unique-id/name field values come from the feature store and are outside
the embedded flow): per-raster pixel counts (present only when more than
one raster is supplied), the total count, and the statistics dictionary. -/
structure ZonalRow where
  counts : List ℕ
  count_total : ℕ
  stats : List (String × StatVal)
deriving DecidableEq

/-- The window/mask pre-creation step of the feature loop of
`zonal.statistics` (lines 130-138): `poly_array = offset = resolution =
None`, then, when all rasters share one grid, the first actual raster is
handed to `extract.feature_to_raster_window` — an attribute that does not
exist in the shipped `extract.py` (which defines only
`getFeatureToRasterWindow`), so the lookup raises `AttributeError` before
any argument (in particular the feature) is consulted; line 137's
`conversion.feature.to_array` is likewise nonexistent but unreachable.
With no actual raster the three variables simply stay `None`. -/
def zonalPrecreate (identical : Bool) (rasters : List (Option Raster)) :
    Except String (Option (List (List ℕ)) × Option (ℤ × ℤ) × Option (ℤ × ℤ)) :=
  if identical then
    match rasters.findSome? id with
    | Option.none => .ok (Option.none, Option.none, Option.none)
    | some _ =>
      .error "AttributeError: module extract has no attribute feature_to_raster_window"
  else .ok (Option.none, Option.none, Option.none)

/-- The per-raster loop of the feature loop of `zonal.statistics` (lines
145-158): a `None` raster contributes zero pixels and is skipped; an
actual raster is handed to `extract.pixels_by_mask_array` (shared-grid
path) or `extract.pixels_by_feature_mask` — attributes that do not exist
in the shipped `extract.py` (which defines only `getPixelsByMaskArray` /
`getPixelsByFeatureMask`), so the lookup raises `AttributeError` before
the call receives its arguments.  Returns the concatenated pixel sample
and the per-raster counts. -/
def zonalRasterLoop (identical : Bool) :
    List (Option Raster × ℕ) → Except String (List ℚ × List ℕ)
  | [] => .ok ([], [])
  | (rast, _band) :: rest =>
    let addE : Except String (List ℚ) :=
      match rast with
      | Option.none => .ok []
      | some _ =>
        if identical then
          .error "AttributeError: module extract has no attribute pixels_by_mask_array"
        else
          .error "AttributeError: module extract has no attribute pixels_by_feature_mask"
    match addE with
    | .error e => .error e
    | .ok add =>
      match zonalRasterLoop identical rest with
      | .error e => .error e
      | .ok (pixels, counts) => .ok (add ++ pixels, add.length :: counts)

/-- The body of the feature loop of `zonal.statistics` for one feature:
window/mask pre-creation, the per-raster pixel gathering, and the
statistics over the combined pixel sample.  The feature and the ignore
specification are consulted only through the broken module-attribute
calls, which raise before receiving them — in particular the zero-count
path (all rasters `None`) never touches the feature's geometry. -/
def zonalProcessFeature (identical : Bool) (rasters : List (Option Raster))
    (bands : List ℕ) (_feature : Feature) (_ignore_values : IgnoreSpec)
    (options : List String) : Except String ZonalRow :=
  match zonalPrecreate identical rasters with
  | .error e => .error e
  | .ok (_polyArray, _offset, _resolution) =>
    match zonalRasterLoop identical (rasters.zip bands) with
    | .error e => .error e
    | .ok (pixels, counts) =>
      .ok { counts := if rasters.length > 1 then counts else []
            count_total := counts.sum
            stats := pyStats pixels options }

/-- The feature loop of `zonal.statistics`: one row per feature, in
iteration order; an exception raised while processing a feature
propagates out of the whole call. -/
def zonalFeatureLoop (identical : Bool) (rasters : List (Option Raster))
    (bands : List ℕ) (ignore_values : IgnoreSpec) (options : List String) :
    List Feature → Except String (List ZonalRow)
  | [] => .ok []
  | f :: rest =>
    match zonalProcessFeature identical rasters bands f ignore_values options with
    | .error e => .error e
    | .ok row =>
      match zonalFeatureLoop identical rasters bands ignore_values options rest with
      | .error e => .error e
      | .ok rows => .ok (row :: rows)

/-- Band number of a normalized `bands` entry (`normalizeBands` succeeds
only with int entries). -/
def pyBandNum : PyVal → ℕ
  | .int i => i.toNat
  | .list _ => 0

/-- `zonal.statistics`, the Zonal Driver, over an already-open feature list:
the no-rasters check, band normalization, identical-raster detection,
statistics validation (in source order), then the feature loop.  The
external feature-store steps (layer opening, unique-id and name field
resolution) and the string-raster opening path are outside the embedded
flow; raster entries arrive as open datasets, for which the
`assert isinstance(rast, gdal.Dataset)` of lines 44-51 passes. -/
def zonalStatistics (rasters : List (Option Raster)) (bands : Option PyVal)
    (features : List Feature) (ignore_values : IgnoreSpec)
    (options : List String) : Except String (List ZonalRow) :=
  if rasters.isEmpty then .error "No rasters supplied"
  else
    match normalizeBands rasters.length bands with
    | .error e => .error e
    | .ok bl =>
      match identicalRastersCheck rasters with
      | .error e => .error e
      | .ok identical =>
        match checkStatsOptions options with
        | .error e => .error e
        | .ok _ =>
          zonalFeatureLoop identical rasters (bl.map pyBandNum) ignore_values
            options features

/-! ## Analysis-side definitions -/

/-- The raster's pixel extent in world coordinates: the rectangle spanned by
the grid origin and the opposite corner `origin + extent * pixel_size`
(componentwise `min`/`max` so either axis orientation is covered). -/
def pixelExtent (r : Raster) : ℚ × ℚ × ℚ × ℚ :=
  (min r.originX (r.originX + r.width * r.psX),
   max r.originX (r.originX + r.width * r.psX),
   min r.originY (r.originY + r.height * r.psY),
   max r.originY (r.originY + r.height * r.psY))

/-- A bounding box lies entirely outside the raster's pixel extent
(disjoint from the closed extent rectangle). -/
def outsideExtent (r : Raster) (xmin xmax ymin ymax : ℚ) : Prop :=
  xmax < (pixelExtent r).1 ∨ (pixelExtent r).2.1 < xmin ∨
  ymax < (pixelExtent r).2.2.1 ∨ (pixelExtent r).2.2.2 < ymin

/-- The upper-case alias names `_stats` recognizes for each canonical
statistic key. -/
def aliasesOf : CanonKey → List String
  | .min => ["MIN", "MINIMUM"]
  | .max => ["MAX", "MAXIMUM"]
  | .mean => ["MEAN", "AVERAGE", "AVG"]
  | .median => ["MEDIAN"]
  | .var => ["VAR", "VARIANCE"]
  | .stdev => ["STDEV"]
  | .perc90 => ["PERC90"]

/-- The canonicalized recognized options among a request list: the canonical
lowercase key names (in `calculate` insertion order) of the statistics
some requested option resolves to. -/
def canonicalizedRequested (options : List String) : List String :=
  (masterKeys.filter fun c => decide (c ∈ options.filterMap canonOf)).map canonName

/-! ## Concrete instances -/

/-- A 1x1 raster whose single pixel (any band) has value 5. -/
def rasterOne : Raster := ⟨0, 0, 1, -1, 1, 1, fun _ _ _ => 5⟩

/-- A 2x2 north-up raster: origin (0, 10), pixel size (1, -1); its pixel
extent is the square with x in 0..2 and y in 8..10. -/
def rasterTwo : Raster := ⟨0, 10, 1, -1, 2, 2, fun _ _ _ => 5⟩

/-- A 4x4 north-up raster used as a concrete instance of the clamping
invariant. -/
def rasterThree : Raster := ⟨0, 0, 1, -1, 4, 4, fun _ _ _ => 1⟩

/-- A 10x10 raster with POSITIVE y pixel size (non-standard orientation):
origin (0, 0), pixel size (1, 1). -/
def rasterSix : Raster := ⟨0, 0, 1, 1, 10, 10, fun _ _ _ => 0⟩

/-! ## Helper lemmas on the statistics aggregator -/

theorem masterKeys_nodup : masterKeys.Nodup := by decide

theorem canonOf_eq_some_iff (o : String) (c : CanonKey) :
    canonOf o = some c ↔ pyUpper o ∈ aliasesOf c := by
  unfold canonOf aliasesOf
  dsimp only
  constructor
  · intro h
    split_ifs at h with h1 h2 h3 h4 h5 h6 h7 <;> cases c <;> simp_all
  · intro h
    cases c <;> simp only [List.mem_cons, List.not_mem_nil, or_false] at h <;>
      first
        | (rcases h with h | h | h <;> simp [h])
        | (rcases h with h | h <;> simp [h])
        | simp [h]

theorem mem_filterMap_canonOf (options : List String) (c : CanonKey) :
    c ∈ options.filterMap canonOf ↔
      ∃ s ∈ aliasesOf c, s ∈ options.map pyUpper := by
  rw [List.mem_filterMap]
  constructor
  · rintro ⟨o, ho, hc⟩
    exact ⟨pyUpper o, (canonOf_eq_some_iff o c).mp hc, List.mem_map_of_mem _ ho⟩
  · rintro ⟨s, hs, hm⟩
    obtain ⟨o, ho, rfl⟩ := List.mem_map.mp hm
    exact ⟨o, ho, (canonOf_eq_some_iff o c).mpr hs⟩

theorem flagOf_calcFlags (options : List String) (c : CanonKey) :
    flagOf (calcFlags options) c = decide (c ∈ options.filterMap canonOf) := by
  have h := mem_filterMap_canonOf options c
  have hb : (flagOf (calcFlags options) c = true) ↔
      (c ∈ options.filterMap canonOf) := by
    rw [h]
    cases c <;>
      · simp only [flagOf, calcFlags, aliasesOf, List.exists_mem_cons_iff,
          List.mem_nil_iff, false_and, exists_false, Bool.or_eq_true,
          decide_eq_true_eq, or_false]
        try tauto
  rw [Bool.eq_iff_iff, hb, decide_eq_true_iff]

theorem statsZero_eq_filter (c : StatFlags) :
    statsZero c =
      (masterKeys.filter (flagOf c)).map (fun k => (canonName k, StatVal.q 0)) := by
  obtain ⟨b1, b2, b3, b4, b5, b6, b7⟩ := c
  cases b1 <;> cases b2 <;> cases b3 <;> cases b4 <;> cases b5 <;> cases b6 <;>
    cases b7 <;> rfl

theorem pyStats_nil (options : List String) :
    pyStats [] options = statsZero (calcFlags options) := rfl

theorem pyStats_nil_canonical (options : List String) :
    pyStats [] options =
      (canonicalizedRequested options).map (fun k => (k, StatVal.q 0)) := by
  rw [pyStats_nil, statsZero_eq_filter, canonicalizedRequested, List.map_map]
  congr 1
  apply List.filter_congr
  intro c _
  exact flagOf_calcFlags options c

theorem pyStats_nil_length (options : List String) :
    (pyStats [] options).length =
      (masterKeys.filter fun c => decide (c ∈ options.filterMap canonOf)).length := by
  rw [pyStats_nil_canonical]
  simp [canonicalizedRequested]

theorem filter_length_le_dedup (options : List String) :
    (masterKeys.filter fun c => decide (c ∈ options.filterMap canonOf)).length ≤
      (options.filterMap canonOf).dedup.length := by
  apply List.Subperm.length_le
  apply List.subperm_of_subset
  · exact masterKeys_nodup.filter _
  · intro x hx
    rw [List.mem_dedup]
    exact of_decide_eq_true (List.mem_filter.mp hx).2

theorem filterMap_length_lt {α β : Type} (f : α → Option β) {l : List α} {a : α}
    (ha : a ∈ l) (hf : f a = Option.none) :
    (l.filterMap f).length < l.length := by
  induction l with
  | nil => cases ha
  | cons b t ih =>
    rw [List.filterMap_cons]
    rcases List.mem_cons.mp ha with rfl | ha2
    · rw [hf]
      exact Nat.lt_succ_of_le (List.length_filterMap_le f t)
    · cases hfb : f b
      · exact Nat.lt_succ_of_lt (ih ha2)
      · simpa using Nat.succ_lt_succ (ih ha2)

theorem dedup_length_lt {α : Type} [DecidableEq α] {l : List α} (h : ¬ l.Nodup) :
    l.dedup.length < l.length := by
  rcases Nat.lt_or_ge l.dedup.length l.length with hlt | hge
  · exact hlt
  · exfalso
    have hsub := List.dedup_sublist l
    have heq : l.dedup = l := hsub.eq_of_length (le_antisymm hsub.length_le hge)
    exact h (heq ▸ l.nodup_dedup)

theorem pyStats_median_lookup (values : List ℚ) (options : List String)
    (hne : values ≠ []) (hmed : "MEDIAN" ∈ options.map pyUpper) :
    (pyStats values options).lookup "median" =
      some (StatVal.q (pyGet (values.insertionSort (· ≤ ·))
        (pyRound (1/2 * (values.length : ℚ)) - 1))) := by
  have hemp : values.isEmpty = false := by
    cases values
    · simp at hne
    · rfl
  have hm : (calcFlags options).median = true := by
    simp only [calcFlags, decide_eq_true_eq]
    exact hmed
  have hn : decide (0 < values.length) = true := by
    cases values
    · simp at hne
    · simp
  unfold pyStats
  rw [hemp]
  simp only [Bool.false_eq_true, if_false, hm, hn, Bool.and_self, if_true]
  rcases h1 : (calcFlags options).min <;> rcases h2 : (calcFlags options).max <;>
    rcases h3 : (calcFlags options).mean <;>
    simp [List.lookup]

/-! ## Helper lemmas on the zonal driver -/

theorem identicalRastersCheck_error {rs : List (Option Raster)} {r : Raster}
    (h : some r ∈ rs) :
    identicalRastersCheck rs =
      .error "AttributeError: module rasters has no attribute get_transform" := by
  induction rs with
  | nil => cases h
  | cons hd tl ih =>
    cases hd with
    | none =>
      rcases List.mem_cons.mp h with h1 | h2
      · exact absurd h1 (by simp)
      · simpa [identicalRastersCheck] using ih h2
    | some r2 => rfl

theorem identicalRastersCheck_allNone {rs : List (Option Raster)}
    (hall : ∀ x ∈ rs, x = Option.none) : identicalRastersCheck rs = .ok true := by
  induction rs with
  | nil => rfl
  | cons hd tl ih =>
    have hhd := hall hd (List.mem_cons_self _ _)
    subst hhd
    simpa [identicalRastersCheck] using
      ih (fun x hx => hall x (List.mem_cons_of_mem _ hx))

theorem findSome?_id_allNone {rs : List (Option Raster)}
    (hall : ∀ x ∈ rs, x = Option.none) : rs.findSome? id = Option.none := by
  induction rs with
  | nil => rfl
  | cons hd tl ih =>
    have hhd := hall hd (List.mem_cons_self _ _)
    subst hhd
    simpa [List.findSome?] using
      ih (fun x hx => hall x (List.mem_cons_of_mem _ hx))

theorem zonalRasterLoop_allNone (identical : Bool) :
    ∀ (pairs : List (Option Raster × ℕ)), (∀ p ∈ pairs, p.1 = Option.none) →
      zonalRasterLoop identical pairs =
        .ok ([], List.replicate pairs.length 0) := by
  intro pairs
  induction pairs with
  | nil => intro _; rfl
  | cons hd tl ih =>
    intro hall
    obtain ⟨h1, h2⟩ := hd
    have hhd : h1 = Option.none := hall (h1, h2) (List.mem_cons_self _ _)
    subst hhd
    have htl := ih (fun p hp => hall p (List.mem_cons_of_mem _ hp))
    simp [zonalRasterLoop, htl, List.replicate_succ]

theorem zonalProcessFeature_allNone (identical : Bool)
    (rasters : List (Option Raster)) (bands : List ℕ) (f : Feature)
    (ig : IgnoreSpec) (options : List String)
    (hall : ∀ x ∈ rasters, x = Option.none) :
    zonalProcessFeature identical rasters bands f ig options =
      .ok { counts := if rasters.length > 1 then
              List.replicate (rasters.zip bands).length 0
            else []
            count_total := 0
            stats := pyStats [] options } := by
  have hpre : zonalPrecreate identical rasters =
      .ok (Option.none, Option.none, Option.none) := by
    cases identical
    · rfl
    · simp [zonalPrecreate, findSome?_id_allNone hall]
  have hzip : ∀ p ∈ rasters.zip bands, p.1 = Option.none := by
    intro p hp
    obtain ⟨hp1, _⟩ := List.of_mem_zip hp
    exact hall p.1 hp1
  have hloop := zonalRasterLoop_allNone identical (rasters.zip bands) hzip
  unfold zonalProcessFeature
  rw [hpre]
  dsimp only
  rw [hloop]
  simp [List.sum_replicate]

theorem zonalFeatureLoop_const (identical : Bool)
    (rasters : List (Option Raster)) (bands : List ℕ) (ig : IgnoreSpec)
    (options : List String) (row : ZonalRow)
    (h : ∀ f, zonalProcessFeature identical rasters bands f ig options = .ok row) :
    ∀ features, zonalFeatureLoop identical rasters bands ig options features =
      .ok (features.map fun _ => row) := by
  intro features
  induction features with
  | nil => rfl
  | cons f rest ih => simp [zonalFeatureLoop, h f, ih]

/-! ## Claim theorems -/

/-- Claim C1 (code bug).  The claim states that with no ignore specification
the Masked Pixel Extractor retains every pixel value under presence-1
cells.  The code does the opposite: `values.append(v)` is reachable only
inside the `if ignore_values:` branch, so with `ignore_values = None`
nothing is ever appended.  On a 1x1 raster with value 5 and the
all-presence mask, the call with no ignore specification returns the
empty list while the same call with a non-matching ignore list returns
`[5]` — contradicting the function's own docstring (`Get all pixel-values
in raster using a raster/array mask`, `ignore_values` optional). -/
theorem noIgnoreSpec_extracts_nothing :
    getPixelsByMaskArray (some rasterOne) 1 (some [[1]]) (some (0, 0))
      Option.none IgnoreSpec.absent = .ok [] ∧
    getPixelsByMaskArray (some rasterOne) 1 (some [[1]]) (some (0, 0))
      Option.none (IgnoreSpec.vals [-9999]) = .ok [5] := by
  constructor <;>
    norm_num [rasterOne, getPixelsByMaskArray, readRaster, ignoreTruthy,
      List.range_succ]

/-- Claim C2 (code bug).  The claim states that a feature bounding box
entirely outside the raster's pixel extent always yields the all-null
sentinel.  Counterexample: the box x in 0..2, y in 5..7.9 lies wholly
below `rasterTwo` (whose extent is x in 0..2, y in 8..10), yet the snap
`ymax -= (origin[1] - ymax) % pixel_size[1]` lands on 8.8 — not a grid
line — and the Feature Window Locator returns a one-row window with
offset (0, 1) and resolution (2, 1), contradicting the source's own
`# outside of extent return empty array`.  Downstream, this window makes
the extractor read two pixels and the driver count them. -/
theorem outside_feature_window_not_null :
    outsideExtent rasterTwo 0 2 5 (79/10) ∧
    windowFromExtent rasterTwo 0 2 5 (79/10) =
      some ⟨(0, 44/5), (2, 1), (0, 1), (1, -1)⟩ := by
  constructor
  · norm_num [rasterTwo, outsideExtent, pixelExtent]
  · norm_num [rasterTwo, windowFromExtent, windowFinalize, pymod, pyint]

/-- Clamping invariant of the tail of the Feature Window Locator: a non-null
window has strictly positive resolution and its offset plus resolution
stays within the given band dimensions. -/
theorem windowFinalize_spec {W H : ℕ} {o : ℚ × ℚ} {ps : ℚ × ℚ}
    {r0 r1 xo yo : ℤ} {w : Window}
    (h : windowFinalize W H o ps r0 r1 xo yo = some w) :
    0 < w.resolution.1 ∧ 0 < w.resolution.2 ∧
    w.offset.1 + w.resolution.1 ≤ (W : ℤ) ∧
    w.offset.2 + w.resolution.2 ≤ (H : ℤ) := by
  unfold windowFinalize at h
  split at h
  · exact absurd h (by simp)
  · dsimp only at h
    generalize hA : (if xo + r0 > (W : ℤ) then (W : ℤ) - xo else r0) = A at h
    generalize hB : (if yo + r1 > (H : ℤ) then (H : ℤ) - yo else r1) = B at h
    split at h
    · exact absurd h (by simp)
    · rename_i hres
      push_neg at hres
      obtain ⟨hA0, hB0⟩ := hres
      injection h with h2
      subst h2
      refine ⟨hA0, hB0, ?_, ?_⟩ <;> dsimp only
      · by_cases hc : xo + r0 > (W : ℤ)
        · rw [if_pos hc] at hA; omega
        · rw [if_neg hc] at hA; omega
      · by_cases hc : yo + r1 > (H : ℤ)
        · rw [if_pos hc] at hB; omega
        · rw [if_neg hc] at hB; omega

/-- Claim C3 (confirmed).  Whenever the Feature Window Locator returns a
non-null window, both resolution components are strictly positive and
`offset.x + resolution.x <= raster.width` and
`offset.y + resolution.y <= raster.height` hold (the clamping invariant),
for every raster grid and every feature envelope. -/
theorem window_clamping_invariant (r : Raster) (xmin xmax ymin ymax : ℚ)
    (w : Window) (h : windowFromExtent r xmin xmax ymin ymax = some w) :
    0 < w.resolution.1 ∧ 0 < w.resolution.2 ∧
    w.offset.1 + w.resolution.1 ≤ (r.width : ℤ) ∧
    w.offset.2 + w.resolution.2 ≤ (r.height : ℤ) := by
  unfold windowFromExtent at h
  exact windowFinalize_spec h

/-- Witness for C3: on `rasterThree` the envelope (0.5, 2.5, -2.5, -0.5)
yields the concrete window with resolution (2, 2) at offset (0, 0), and
the invariant holds for it. -/
theorem window_clamping_invariant_witness :
    0 < ((⟨(0, 0), (2, 2), (0, 0), (1, -1)⟩ : Window)).resolution.1 ∧
    0 < ((⟨(0, 0), (2, 2), (0, 0), (1, -1)⟩ : Window)).resolution.2 ∧
    ((⟨(0, 0), (2, 2), (0, 0), (1, -1)⟩ : Window)).offset.1 +
      ((⟨(0, 0), (2, 2), (0, 0), (1, -1)⟩ : Window)).resolution.1 ≤
      (rasterThree.width : ℤ) ∧
    ((⟨(0, 0), (2, 2), (0, 0), (1, -1)⟩ : Window)).offset.2 +
      ((⟨(0, 0), (2, 2), (0, 0), (1, -1)⟩ : Window)).resolution.2 ≤
      (rasterThree.height : ℤ) :=
  window_clamping_invariant rasterThree (1/2) (5/2) (-5/2) (-1/2)
    ⟨(0, 0), (2, 2), (0, 0), (1, -1)⟩
    (by norm_num [rasterThree, windowFromExtent, windowFinalize, pymod, pyint])

/-- Claim C4 (confirmed).  For every list of requested statistic options,
`_stats` on the empty value list returns (without raising — the embedded
function is total) the association list whose keys are exactly the
canonicalized recognized options among those requested, each mapped to 0
(keys present with value 0, not absent). -/
theorem stats_empty_input_all_zero (options : List String) :
    pyStats [] options =
      (canonicalizedRequested options).map (fun k => (k, StatVal.q 0)) :=
  pyStats_nil_canonical options

/-- Claim C5 (confirmed).  For every non-empty value list with MEDIAN
requested, `_stats` returns under the key `median` the element of the
sorted list at Python index `round(0.5 * n) - 1` — i.e. the 1-based rank
`round(0.5 * n)` with Python's banker's rounding (for n = 1 index -1,
Python's last element); in particular `statistics([1,2,3,4], ["MEDIAN"])`
returns the lower middle value 2, not 2.5. -/
theorem stats_median_rank :
    (∀ (values : List ℚ) (options : List String), values ≠ [] →
      "MEDIAN" ∈ options.map pyUpper →
      (pyStats values options).lookup "median" =
        some (StatVal.q (pyGet (values.insertionSort (· ≤ ·))
          (pyRound (1/2 * (values.length : ℚ)) - 1)))) ∧
    pyStats [1, 2, 3, 4] ["MEDIAN"] = [("median", StatVal.q 2)] := by
  constructor
  · exact pyStats_median_lookup
  · have hup : pyUpper "MEDIAN" = "MEDIAN" := by decide
    have hs : ([1, 2, 3, 4] : List ℚ).insertionSort (· ≤ ·) = [1, 2, 3, 4] := by
      decide
    have hflags : calcFlags ["MEDIAN"] =
        ⟨false, false, false, true, false, false, false⟩ := by
      simp [calcFlags, hup]
    norm_num [pyStats, hflags, hs, pyRound, pyGet]

/-- Witness for C5: the general median-rank statement applied to the value
list [1,2,3,4] with options ["MEDIAN"]. -/
theorem stats_median_rank_witness :
    (pyStats [1, 2, 3, 4] ["MEDIAN"]).lookup "median" =
      some (StatVal.q (pyGet (([1, 2, 3, 4] : List ℚ).insertionSort (· ≤ ·))
        (pyRound (1/2 * ((([1, 2, 3, 4] : List ℚ).length : ℕ) : ℚ)) - 1))) :=
  stats_median_rank.1 [1, 2, 3, 4] ["MEDIAN"] (by simp) (by decide)

/-- Claim C6 (code bug).  The claim states that with a positive y pixel size
the locator clamps when the feature's minimum y precedes the raster
origin and otherwise snaps that minimum down.  The code instead tests
`ymax < origin[1]`: for the envelope y in -0.5..0.5 over `rasterSix`
(origin y = 0, pixel size y = +1) no clamping happens, `ymin` is snapped
down to -1 and the returned y-offset is -1 instead of 0; the subsequent
window read then fails on the negative offset. -/
theorem positive_psy_offset_not_clamped :
    windowFromExtent rasterSix 0 1 (-1/2) (1/2) =
      some ⟨(0, -1), (1, 1), (0, -1), (1, 1)⟩ ∧
    readRaster rasterSix 1 0 (-1) 1 1 =
      .error "Offset (y) is greater than band height or negative" := by
  constructor
  · norm_num [rasterSix, windowFromExtent, windowFinalize, pymod, pyint]
  · norm_num [rasterSix, readRaster]

/-- Claim C7 (code bug).  The claim states the driver broadcasts a single
band, accepts a matching-length bands list as-is, and errors on other
mismatches.  The code wraps any list input in another list
(`if isinstance(bands, (list, tuple)): bands = [bands]` — the `not` is
missing), so the per-element `assert isinstance(band, int)` fails for a
matching-length list `[1, 2]` over two rasters as well as for the
broadcastable single-element list `[2]`, contradicting the parameter's
documentation; only the `bands = None` default (band 1 for every raster)
works. -/
theorem bands_normalization_raises :
    normalizeBands 2 (some (PyVal.list [PyVal.int 1, PyVal.int 2])) =
      .error "AssertionError" ∧
    normalizeBands 2 (some (PyVal.list [PyVal.int 2])) =
      .error "AssertionError" ∧
    normalizeBands 2 Option.none = .ok [PyVal.int 1, PyVal.int 1] := by
  refine ⟨rfl, rfl, rfl⟩

/-- Counterexample to claim C8 as stated: for a feature whose geometry is
`None` over one actual raster, the Zonal Driver raises — the
identical-raster detection evaluates the nonexistent module attribute
`rasterutils.get_transform` before any feature is iterated — so no row is
emitted, and the error is independent of the feature's geometry. -/
theorem null_geometry_row_counterexample :
    zonalStatistics [some rasterOne] Option.none [⟨Option.none⟩]
      IgnoreSpec.absent ["MIN"] =
      .error "AttributeError: module rasters has no attribute get_transform" := rfl

/-- Claim C8 (corrected).  Amended: the shipped Zonal Driver never reaches a
feature's geometry.  Whenever the raster list contains at least one actual
(non-null) raster — and the band normalization succeeds — it raises
`AttributeError` at the identical-raster detection (`rasterutils.
get_transform` does not exist in the shipped `rasters.py`) before
iterating any feature, so no row is emitted for any feature, null
geometry or not.  Only when every raster entry is `None` does the feature
loop run, and then every feature — including one whose geometry is `None`,
which is never consulted on this path — receives a row with
`count_total = 0` and every requested statistic equal to 0. -/
theorem null_geometry_no_row :
    (∀ (rasters : List (Option Raster)) (bands : Option PyVal)
        (features : List Feature) (ig : IgnoreSpec) (options : List String)
        (r0 : Raster) (bl : List PyVal),
        some r0 ∈ rasters → normalizeBands rasters.length bands = .ok bl →
        zonalStatistics rasters bands features ig options =
          .error "AttributeError: module rasters has no attribute get_transform") ∧
    (∀ (n : ℕ) (features : List Feature) (ig : IgnoreSpec)
        (options : List String), 0 < n → checkStatsOptions options = .ok () →
        zonalStatistics (List.replicate n Option.none) Option.none features ig
            options =
          .ok (features.map fun _ =>
            { counts := if 1 < n then List.replicate n 0 else []
              count_total := 0
              stats := pyStats [] options })) := by
  constructor
  · intro rasters bands features ig options r0 bl hmem hnb
    have hne : rasters.isEmpty = false := by
      cases rasters
      · cases hmem
      · rfl
    unfold zonalStatistics
    simp only [hne, Bool.false_eq_true, if_false]
    rw [hnb]
    dsimp only
    rw [identicalRastersCheck_error hmem]
  · intro n features ig options hn hck
    have hall : ∀ x ∈ List.replicate n (Option.none : Option Raster),
        x = Option.none := fun x hx => List.eq_of_mem_replicate hx
    have hne : (List.replicate n (Option.none : Option Raster)).isEmpty = false := by
      cases n
      · omega
      · rfl
    have hnb : normalizeBands
        (List.replicate n (Option.none : Option Raster)).length Option.none =
        .ok (List.replicate n (PyVal.int 1)) := by
      simp [normalizeBands]
    have hrow := fun f => zonalProcessFeature_allNone true
      (List.replicate n Option.none)
      ((List.replicate n (PyVal.int 1)).map pyBandNum) f ig options hall
    unfold zonalStatistics
    simp only [hne, Bool.false_eq_true, if_false]
    rw [hnb]
    dsimp only
    rw [identicalRastersCheck_allNone hall]
    dsimp only
    rw [hck]
    dsimp only
    rw [zonalFeatureLoop_const true _ _ ig options _ hrow features]
    simp [List.length_zip]

/-- Witness for C8 (amended): with the raster list [None, rasterOne] the
driver raises the module-attribute error before any feature, and with the
all-null raster list [None] the null-geometry feature receives the
zero-count, all-zero-statistics row. -/
theorem null_geometry_no_row_witness :
    zonalStatistics [Option.none, some rasterOne] Option.none [⟨Option.none⟩]
      IgnoreSpec.absent ["MAX"] =
      .error "AttributeError: module rasters has no attribute get_transform" ∧
    zonalStatistics [Option.none] Option.none [⟨Option.none⟩]
      IgnoreSpec.absent ["MIN"] =
      .ok [{ counts := [], count_total := 0, stats := [("min", StatVal.q 0)] }] := by
  constructor
  · exact null_geometry_no_row.1 [Option.none, some rasterOne] Option.none
      [⟨Option.none⟩] IgnoreSpec.absent ["MAX"] rasterOne
      [PyVal.int 1, PyVal.int 1] (by simp) rfl
  · have hps : pyStats [] ["MIN"] = [("min", StatVal.q 0)] := by decide
    have h := null_geometry_no_row.2 1 [⟨Option.none⟩] IgnoreSpec.absent ["MIN"]
      (by omega) rfl
    simpa [hps] using h

/-- Claim C9 (confirmed).  A requested name that resolves to no recognized
alias contributes no key to the `_stats` output — the probe on the empty
list returns strictly fewer keys than names requested (dropped silently,
with no per-name error: the aggregator is total) — and the driver's
validation, which runs before the feature loop, raises the
unrecognized-statistics exception. -/
theorem unrecognized_stat_validation_error (options : List String) (o : String)
    (ho : o ∈ options) (hbad : canonOf o = Option.none) :
    (pyStats [] options).length < options.length ∧
    checkStatsOptions options =
      .error "Unrecognized statistics type in parameters, check parameter/spelling" := by
  have hlt : (pyStats [] options).length < options.length := by
    rw [pyStats_nil_length]
    calc (masterKeys.filter fun c => decide (c ∈ options.filterMap canonOf)).length
        ≤ (options.filterMap canonOf).dedup.length := filter_length_le_dedup options
      _ ≤ (options.filterMap canonOf).length := (List.dedup_sublist _).length_le
      _ < options.length := filterMap_length_lt canonOf ho hbad
  have h0 : ¬ options.length = 0 := by
    intro h0
    rw [List.length_eq_zero] at h0
    subst h0
    cases ho
  refine ⟨hlt, ?_⟩
  simp only [checkStatsOptions, if_neg h0, if_pos hlt.ne]

/-- Witness for C9: requesting ["MIN", "BOGUS"] gives one key for two names
and the validation error. -/
theorem unrecognized_stat_validation_error_witness :
    (pyStats [] ["MIN", "BOGUS"]).length <
      (["MIN", "BOGUS"] : List String).length ∧
    checkStatsOptions ["MIN", "BOGUS"] =
      .error "Unrecognized statistics type in parameters, check parameter/spelling" :=
  unrecognized_stat_validation_error ["MIN", "BOGUS"] "BOGUS" (by simp) (by decide)

/-- Claim C10 (confirmed).  When two distinct request entries canonicalize to
the same statistic key — every supplied name being recognized — the probe
on the empty list returns strictly fewer keys than names requested, so
the driver raises its unrecognized-statistics exception even though every
name is valid. -/
theorem alias_collision_validation_error (options : List String) (a b : String)
    (k : CanonKey) (hsub : List.Sublist [a, b] options)
    (ha : canonOf a = some k) (hb : canonOf b = some k)
    (_hall : ∀ o ∈ options, (canonOf o).isSome = true) :
    checkStatsOptions options =
      .error "Unrecognized statistics type in parameters, check parameter/spelling" := by
  have hcount : 2 ≤ (options.filterMap canonOf).count k := by
    have h2 : List.Sublist [k, k] (options.filterMap canonOf) := by
      have h3 := hsub.filterMap canonOf
      simpa [List.filterMap_cons, ha, hb] using h3
    simpa using h2.count_le k
  have hnd : ¬ (options.filterMap canonOf).Nodup := by
    intro hnd
    have := List.nodup_iff_count_le_one.mp hnd k
    omega
  have hlt : (pyStats [] options).length < options.length := by
    rw [pyStats_nil_length]
    calc (masterKeys.filter fun c => decide (c ∈ options.filterMap canonOf)).length
        ≤ (options.filterMap canonOf).dedup.length := filter_length_le_dedup options
      _ < (options.filterMap canonOf).length := dedup_length_lt hnd
      _ ≤ options.length := List.length_filterMap_le _ _
  have h0 : ¬ options.length = 0 := by
    have h4 := hsub.length_le
    simp only [List.length_cons, List.length_singleton] at h4
    omega
  simp only [checkStatsOptions, if_neg h0, if_pos hlt.ne]

/-- Witness for C10: ["MIN", "MINIMUM"] — both recognized, same canonical
key — is rejected by the driver's validation. -/
theorem alias_collision_validation_error_witness :
    checkStatsOptions ["MIN", "MINIMUM"] =
      .error "Unrecognized statistics type in parameters, check parameter/spelling" :=
  alias_collision_validation_error ["MIN", "MINIMUM"] "MIN" "MINIMUM" CanonKey.min
    (List.Sublist.refl _) (by decide) (by decide) (by decide)

end GdalCommon
